import Mathlib

/-!
# Verification of the `leaf` bootstrap orchestrator (`src/leaf/__init__.py`)

Shallow embedding of the `Init` class and the collaborator objects it touches.
The orchestrator itself (`Init.__init__`, `kernel`, `server`, `logging`,
`database`, `plugins`, `weixin`, `wxpay`) is translated directly from
`src/leaf/__init__.py`.  The collaborators it calls live in modules of this
repository that are not under `src/` (`core.events`, `core.error`,
`core.schedule`, `core.database`, `plugins`, `payments`, `weixin`); those are
modelled from the spec, each with a doc comment saying so.

Conventions of the embedding:
* Python exceptions are modelled with `Except`: a raised exception is an
  `Except.error`.  The claims checked here inspect only which error is raised,
  never the partially-mutated registry at the raise point, so `Except.error`
  carries just the exception value.
* The shared mutable namespaces (`core.modules` and any user-supplied
  `AttrDict`) live in a heap indexed by `Nat` references, because several
  `Init` instances can alias one namespace and `Init.__init__` rebinds the
  package-level `core.modules` reference.
* Fresh, unforgeable values (loggers created by `core.error.Logging`, the
  64-byte random server secret) are drawn from a monotone counter `nextId`
  in the process state; cryptographic randomness itself is out of scope.
-/

/-- The eight error kinds the orchestrator registers: four event-system kinds
in `kernel()` and four plugin kinds in `plugins()`. -/
inductive ErrKind
  | EventNotFound
  | InvalidEventName
  | InvalidRootName
  | ReachedMaxReg
  | PluginImportError
  | PluginNotFound
  | PluginInitError
  | PluginRuntimeError
deriving DecidableEq, Repr

/-- A Python exception as observed by the orchestrator: either the `KeyError`
an `AttrDict` raises when a named slot is absent, or one of the framework's
own error kinds. -/
inductive PyError
  | keyError (slot : String)
  | leafError (kind : ErrKind)
deriving DecidableEq, Repr

/-- Modelled from the spec: `core.error.Messenger`, the central error
registry; every component calls `register(error_kind)` once per kind at its
own initialization time.  Modelled as the ordered list of registered kinds. -/
structure Messenger where
  registered : List ErrKind
deriving DecidableEq, Repr

/-- Registration of an error kind appends it to the registry. -/
def Messenger.register (m : Messenger) (k : ErrKind) : Messenger :=
  ⟨m.registered ++ [k]⟩

/-- Modelled from the spec: `core.schedule.Manager`, the task scheduler.
None of the claims inspects its internals, so it is a bare marker value. -/
structure SchedManager where
deriving DecidableEq, Repr

/-- Modelled from the spec: a `plugins.Manager` discovery root — either a
filesystem directory, or the injected default collection `plugins.current`. -/
inductive PluginSource
  | dir (d : String)
  | current
deriving DecidableEq, Repr

/-- Modelled from the spec: `plugins.Manager`.  The claims only need its
discovery root and the `scan(autorun)` invocations recorded against it. -/
structure PluginsManager where
  source : PluginSource
  scans : List Bool
deriving DecidableEq, Repr

/-- The `scan(autorun)` call enumerates and loads plugin candidates; the
claims only need that it was invoked with the given `autorun` flag. -/
def PluginsManager.scan (m : PluginsManager) (autorun : Bool) : PluginsManager :=
  { m with scans := m.scans ++ [autorun] }

/-- The pool `core.database.MongoDBPool` as constructed by `Init.database`:
`(size, server, port, username, password, timeout)`. -/
structure Pool where
  size : Nat
  server : String
  port : Nat
  username : String
  password : String
  timeout : Nat
deriving DecidableEq, Repr

/-- A callable hooked onto an event by the orchestrator: either the bound
method `modules.plugins.stopall` (closing over the manager) or `pool.stop`
(closing over the pool). -/
inductive Hook
  | stopall (mgr : PluginsManager)
  | poolStop (pool : Pool)
deriving DecidableEq, Repr

/-- Modelled from the spec: `core.events.Event` — identifier, default
invocation arguments `((), {})` (carried as a unit, since no claim inspects
them), description, and the ordered list of hooked callables. -/
structure Event where
  name : String
  description : String
  hooks : List Hook
deriving DecidableEq, Repr

/-- Hooking appends a callable to the event's ordered hook sequence. -/
def Event.hook (e : Event) (h : Hook) : Event :=
  { e with hooks := e.hooks ++ [h] }

/-- Notification invokes every hooked callable in registration order;
modelled as the invocation trace. -/
def Event.notify (e : Event) : List Hook :=
  e.hooks

/-- Modelled from the spec: `core.events.Manager`, the event bus — a mapping
from identifier to `Event` with unique identifiers.  Kept as the ordered
association list of events. -/
structure EventsManager where
  events : List Event
deriving DecidableEq, Repr

/-- The characters of an identifier split at `'.'` separators (the
structural counterpart of Python's `identifier.split(".")`). -/
def splitDots : List Char → List (List Char)
  | [] => [[]]
  | c :: cs =>
    if c = '.' then [] :: splitDots cs
    else
      match splitDots cs with
      | [] => [[c]]
      | p :: ps => (c :: p) :: ps

/-- Modelled from the spec: identifier validity — non-empty and namespaced
(`root.leaf...`); an empty namespace root is `InvalidRootName`, an empty or
missing leaf part is `InvalidEventName`; a valid event is appended under its
identifier. -/
def EventsManager.add (m : EventsManager) (e : Event) : Except PyError EventsManager :=
  match splitDots e.name.toList with
  | [] => .error (.leafError .InvalidEventName)
  | root :: rest =>
    if root.isEmpty then .error (.leafError .InvalidRootName)
    else if rest.isEmpty || rest.any (·.isEmpty) then .error (.leafError .InvalidEventName)
    else .ok ⟨m.events ++ [e]⟩

/-- Modelled from the spec: `Manager.event(identifier)` returns the event for
the identifier and fails with `EventNotFound` when it is absent. -/
def EventsManager.event (m : EventsManager) (name : String) : Except PyError Event :=
  match m.events.find? (fun e => e.name == name) with
  | some e => .ok e
  | none => .error (.leafError .EventNotFound)

/-- Looking an event up with `event(name)` and calling `.hook(h)` on the
result mutates the event stored in the bus (they are the same Python object);
modelled as a bus-level update that fails exactly when the lookup fails. -/
def EventsManager.hookOn (m : EventsManager) (name : String) (h : Hook) :
    Except PyError EventsManager :=
  match m.event name with
  | .error e => .error e
  | .ok _ =>
      .ok ⟨m.events.map (fun ev => if ev.name = name then ev.hook h else ev)⟩

/-- Modelled from the spec: `core.error.Logging` — the logging handle with a
root logger (identified by an unforgeable id), the rc file and format it was
constructed with, and the handler levels/formats `Init.logging` sets.  The
defaults a fresh handle starts with are not specified; they are modelled as
level `0` and no format. -/
structure Logging where
  loggerId : Nat
  file : String
  fmt : Option String
  fileLevel : Nat
  fileFormat : Option String
  consoleLevel : Nat
  consoleFormat : Option String
  loggerLevel : Nat
deriving DecidableEq, Repr

/-- A fresh `core.error.Logging(file=..., fmt=...)` with a fresh logger id. -/
def Logging.new (id : Nat) (file : String) (fmt : Option String) : Logging :=
  { loggerId := id, file := file, fmt := fmt, fileLevel := 0, fileFormat := none
    consoleLevel := 0, consoleFormat := none, loggerLevel := 0 }

/-- The Flask server handle as the orchestrator uses it: its import name, the
attached logger (none until one is attached), the random secret key, and the
blueprints registered on it as (blueprint name, url mount point) pairs. -/
structure Flask where
  name : String
  logger : Option Nat
  secretKey : Option Nat
  blueprints : List (String × String)
deriving DecidableEq, Repr

/-- A fresh `_Flask("leaf")` server handle with nothing attached yet. -/
def Flask.new (name : String) : Flask :=
  { name := name, logger := none, secretKey := none, blueprints := [] }

/-- Blueprint registration mounts a route group at the given url mount
point. -/
def Flask.registerBlueprint (f : Flask) (bp : String) (p : String) : Flask :=
  { f with blueprints := f.blueprints ++ [(bp, p)] }

/-- The encryptor `weixin.Encrypt(aeskey, appid, token)`. -/
structure Encryptor where
  aeskey : String
  appid : String
  token : String
deriving DecidableEq, Repr

/-- The reply suite `weixin.reply.Message(encryptor)`. -/
structure WxMessage where
  enc : Encryptor
deriving DecidableEq, Repr

/-- The reply suite `weixin.reply.Event(encryptor)`. -/
structure WxEvent where
  enc : Encryptor
deriving DecidableEq, Repr

/-- The `modules.weixin` integration namespace filled by `Init.weixin`. -/
structure WeixinNS where
  encrypt : Encryptor
  message : WxMessage
  event : WxEvent
  handler : Option String
deriving DecidableEq, Repr

/-- The three `payments.wxpay.methods` variants. -/
inductive WxpayMethod
  | jsapi
  | native
  | inapp
deriving DecidableEq, Repr

/-- A payment instance
`payments.wxpay.payment(appid, mchid, apikey, callbacks, cert, method)`. -/
structure WxPayment where
  appid : String
  mchid : String
  apikey : String
  callbacks : String
  cert : String
  method : WxpayMethod
deriving DecidableEq, Repr

/-- The signature helper `payments.wxpay.signature(apikey)`. -/
structure WxpaySig where
  apikey : String
deriving DecidableEq, Repr

/-- The `modules.payments.wxpay` namespace filled by `Init.wxpay`. -/
structure WxpayNS where
  jsapi : WxPayment
  native : WxPayment
  inapp : WxPayment
  signature : WxpaySig
deriving DecidableEq, Repr

/-- A shared `AttrDict` namespace (`core.modules` or a user-supplied one):
one optional slot per subsystem the orchestrator writes.  Reading an absent
slot raises `KeyError` (modelled from the spec's "missing-resource
condition", which `Init.logging` catches as `KeyError` in the source).
`modules.error` holds a nested `AttrDict` whose only key is `messenger`;
the two are flattened into the single slot `error` here. -/
structure Modules where
  error : Option Messenger
  events : Option EventsManager
  schedules : Option SchedManager
  server : Option Flask
  plugins : Option PluginsManager
  database : Option Pool
  logging : Option Logging
  payments : Option WxpayNS
  weixin : Option WeixinNS
deriving DecidableEq, Repr

/-- A callback registered with the host `atexit` mechanism.  The only one the
orchestrator registers is the `kernel()` lambda
`lambda: self.__modules.events.event("leaf.exit").notify()`, which closes
over the instance's namespace reference. -/
inductive AtexitCb
  | notifyLeafExit (modulesRef : Nat)
deriving DecidableEq, Repr

/-- Process-wide state: the heap of shared namespaces, the current binding of
the package-level reference `core.modules`, the binding of `leaf.modules`
captured at import time, the `atexit` registration list, and the fresh-value
counter. -/
structure PyState where
  heap : List Modules
  coreModules : Nat
  packageModules : Nat
  atexitRegs : List AtexitCb
  nextId : Nat
deriving DecidableEq, Repr

/-- Read the namespace a reference points at. -/
def PyState.getModules (s : PyState) (r : Nat) : Option Modules :=
  s.heap[r]?

/-- Overwrite the namespace a reference points at. -/
def PyState.setModules (s : PyState) (r : Nat) (m : Modules) : PyState :=
  { s with heap := s.heap.set r m }

/-- An `Init` instance: its captured `self.__modules` reference and the
`self.__kernel_initialized` latch. -/
structure Init where
  modulesRef : Nat
  kernelInitialized : Bool
deriving DecidableEq, Repr

/-- Construction, `Init.__init__(_modules)`: defaults `_modules` to the package-level
`modules` binding, rebinds the global `core.modules` to it, captures it on
the instance, and clears the latch. -/
def Init.construct (r : Option Nat) (s : PyState) : PyState × Init :=
  let ref := match r with
    | some n => n
    | none => s.packageModules
  ({ s with coreModules := ref }, { modulesRef := ref, kernelInitialized := false })

/-- Translation of `Init.kernel()`: guarded by the latch; creates the error registry slot
and messenger, the event bus and the scheduler; registers the four
event-system error kinds; adds the `"leaf.exit"` event; registers the
exit-notifying lambda with `atexit`; sets the latch.  Writes follow the
source order. -/
def Init.kernel (i : Init) (s : PyState) : Except PyError (PyState × Init) :=
  if i.kernelInitialized then .ok (s, i)
  else
    match s.getModules i.modulesRef with
    | none => .error (.keyError "modules")
    | some m =>
      let messenger : Messenger := ⟨[]⟩
      let m := { m with error := some messenger }
      let m := { m with events := some ⟨[]⟩, schedules := some ⟨⟩ }
      let messenger := messenger.register .EventNotFound
      let messenger := messenger.register .InvalidEventName
      let messenger := messenger.register .InvalidRootName
      let messenger := messenger.register .ReachedMaxReg
      let m := { m with error := some messenger }
      let atexitEvent : Event := ⟨"leaf.exit", "在 Leaf 框架退出时执行", []⟩
      match EventsManager.add ⟨[]⟩ atexitEvent with
      | .error e => .error e
      | .ok em =>
        let m := { m with events := some em }
        let s := s.setModules i.modulesRef m
        let s := { s with atexitRegs := s.atexitRegs ++ [.notifyLeafExit i.modulesRef] }
        .ok (s, { i with kernelInitialized := true })

/-- Configuration consumed by `Init.plugins`. -/
structure PluginsConf where
  directory : Option String
  autorun : Bool
deriving DecidableEq, Repr

/-- Translation of `Init.plugins(conf)`: creates the plugin manager (from `conf.directory`
or the default source `plugins.current`), registers the four plugin error
kinds, scans with `conf.autorun`, registers the plugin blueprint on the
server at `"/plugins"`, hooks `stopall` onto `"leaf.exit"`, returns the
manager.  Slot reads that can raise follow the source order: `error` before
`server` before `events`. -/
def Init.plugins (i : Init) (conf : PluginsConf) (s : PyState) :
    Except PyError (PyState × PluginsManager) :=
  match s.getModules i.modulesRef with
  | none => .error (.keyError "modules")
  | some m =>
    let mgr : PluginsManager :=
      match conf.directory with
      | none => ⟨.current, []⟩
      | some d => ⟨.dir d, []⟩
    let m := { m with plugins := some mgr }
    match m.error with
    | none => .error (.keyError "error")
    | some mes =>
      let mes := mes.register .PluginImportError
      let mes := mes.register .PluginNotFound
      let mes := mes.register .PluginInitError
      let mes := mes.register .PluginRuntimeError
      let m := { m with error := some mes }
      let mgr := mgr.scan conf.autorun
      let m := { m with plugins := some mgr }
      match m.server with
      | none => .error (.keyError "server")
      | some srv =>
        let m := { m with server := some (srv.registerBlueprint "plugins" "/plugins") }
        match m.events with
        | none => .error (.keyError "events")
        | some em =>
          match em.hookOn "leaf.exit" (.stopall mgr) with
          | .error e => .error e
          | .ok em =>
            let m := { m with events := some em }
            .ok (s.setModules i.modulesRef m, mgr)

/-- Configuration consumed by `Init.wxpay`. -/
structure WxpayConf where
  appid : String
  mchid : String
  apikey : String
  callbacks : String
  cert : String
deriving DecidableEq, Repr

/-- Translation of `Init.wxpay(conf)`: builds the three payment variants and the signature
helper, stores them under `modules.payments.wxpay`, registers the wxpay
blueprint at `"/wxpay"`, returns the jsapi variant. -/
def Init.wxpay (i : Init) (conf : WxpayConf) (s : PyState) :
    Except PyError (PyState × WxPayment) :=
  match s.getModules i.modulesRef with
  | none => .error (.keyError "modules")
  | some m =>
    let jsapi : WxPayment :=
      ⟨conf.appid, conf.mchid, conf.apikey, conf.callbacks, conf.cert, .jsapi⟩
    let native : WxPayment :=
      ⟨conf.appid, conf.mchid, conf.apikey, conf.callbacks, conf.cert, .native⟩
    let inapp : WxPayment :=
      ⟨conf.appid, conf.mchid, conf.apikey, conf.callbacks, conf.cert, .inapp⟩
    let signature : WxpaySig := ⟨conf.apikey⟩
    let m := { m with payments := some ⟨jsapi, native, inapp, signature⟩ }
    match m.server with
    | none => .error (.keyError "server")
    | some srv =>
      let m := { m with server := some (srv.registerBlueprint "wxpay" "/wxpay") }
      .ok (s.setModules i.modulesRef m, jsapi)

/-- Configuration consumed by `Init.weixin`. -/
structure WeixinConf where
  aeskey : String
  appid : String
  token : String
deriving DecidableEq, Repr

/-- Translation of `Init.weixin(conf)`: builds the encryptor and the message/event reply
suites, stores them under `modules.weixin`, registers the weixin blueprint at
`"/weixin"`, stores the blueprint as `modules.weixin.handler`, returns the
message suite. -/
def Init.weixin (i : Init) (conf : WeixinConf) (s : PyState) :
    Except PyError (PyState × WxMessage) :=
  match s.getModules i.modulesRef with
  | none => .error (.keyError "modules")
  | some m =>
    let encryptor : Encryptor := ⟨conf.aeskey, conf.appid, conf.token⟩
    let message : WxMessage := ⟨encryptor⟩
    let event : WxEvent := ⟨encryptor⟩
    let m := { m with weixin := some ⟨encryptor, message, event, none⟩ }
    match m.server with
    | none => .error (.keyError "server")
    | some srv =>
      let m := { m with server := some (srv.registerBlueprint "weixin" "/weixin") }
      let m := { m with weixin := some ⟨encryptor, message, event, some "weixin"⟩ }
      .ok (s.setModules i.modulesRef m, message)

/-- Translation of `Init.server()`: creates `_Flask("leaf")`, stores it, attaches the
current logging handle's logger (reading the `logging` slot, which raises
`KeyError` when absent), assigns the 64-byte random secret (drawn from the
fresh-value counter), returns the handle. -/
def Init.server (i : Init) (s : PyState) : Except PyError (PyState × Flask) :=
  match s.getModules i.modulesRef with
  | none => .error (.keyError "modules")
  | some m =>
    let srv := Flask.new "leaf"
    match m.logging with
    | none => .error (.keyError "logging")
    | some lg =>
      let srv := { srv with logger := some lg.loggerId }
      let srv := { srv with secretKey := some s.nextId }
      let s := { s with nextId := s.nextId + 1 }
      .ok (s.setModules i.modulesRef { m with server := some srv }, srv)

/-- Configuration consumed by `Init.database`. -/
structure DatabaseConf where
  size : Nat
  server : String
  port : Nat
  username : String
  password : String
  timeout : Nat
deriving DecidableEq, Repr

/-- Translation of `Init.database(conf)`: creates the MongoDB connection pool, stores it in
the `database` slot, looks `"leaf.exit"` up on the event bus (the `events`
slot read raises `KeyError` when absent; the bus lookup raises
`EventNotFound` when the event is absent) and hooks `pool.stop` onto it,
returns the pool. -/
def Init.database (i : Init) (conf : DatabaseConf) (s : PyState) :
    Except PyError (PyState × Pool) :=
  match s.getModules i.modulesRef with
  | none => .error (.keyError "modules")
  | some m =>
    let pool : Pool :=
      ⟨conf.size, conf.server, conf.port, conf.username, conf.password, conf.timeout⟩
    let m := { m with database := some pool }
    match m.events with
    | none => .error (.keyError "events")
    | some em =>
      match em.hookOn "leaf.exit" (.poolStop pool) with
      | .error e => .error e
      | .ok em =>
        let m := { m with events := some em }
        .ok (s.setModules i.modulesRef m, pool)

/-- Configuration consumed by `Init.logging` (`conf.file.*` and
`conf.console.*` flattened). -/
structure LoggingConf where
  format : Option String
  rcfile : String
  fileLevel : Nat
  fileFormat : Option String
  consoleLevel : Nat
  consoleFormat : Option String
  level : Nat
deriving DecidableEq, Repr

/-- Translation of `Init.logging(conf)`: rebuilds the logging handle (with `conf.format`
when given), configures the file and console handlers and the global level,
then tries `self.__modules.server.logger = ...` — the `KeyError` raised when
the `server` slot is absent is caught and the re-attach silently skipped —
and returns the new handle. -/
def Init.logging (i : Init) (conf : LoggingConf) (s : PyState) :
    Except PyError (PyState × Logging) :=
  match s.getModules i.modulesRef with
  | none => .error (.keyError "modules")
  | some m =>
    let lg :=
      match conf.format with
      | some f => Logging.new s.nextId conf.rcfile (some f)
      | none => Logging.new s.nextId conf.rcfile none
    let s := { s with nextId := s.nextId + 1 }
    let lg := { lg with fileLevel := conf.fileLevel }
    let lg :=
      match conf.fileFormat with
      | some f => { lg with fileFormat := some f }
      | none => lg
    let lg := { lg with consoleLevel := conf.consoleLevel }
    let lg :=
      match conf.consoleFormat with
      | some f => { lg with consoleFormat := some f }
      | none => lg
    let lg := { lg with loggerLevel := conf.level }
    let m := { m with logging := some lg }
    let m :=
      match m.server with
      | none => m
      | some srv => { m with server := some { srv with logger := some lg.loggerId } }
    .ok (s.setModules i.modulesRef m, lg)

/-- The strings an `atexit` callback notifies: the `kernel()` lambda looks
`"leaf.exit"` up on its namespace's bus and notifies it once; when the slot
or the event is gone the exception is swallowed by the `atexit` machinery and
nothing is notified. -/
def AtexitCb.notifications (s : PyState) : AtexitCb → List String
  | .notifyLeafExit r =>
    match (s.getModules r).bind (·.events) with
    | none => []
    | some em =>
      match em.event "leaf.exit" with
      | .ok _ => ["leaf.exit"]
      | .error _ => []

/-- The hooks an `atexit` callback causes to run, in invocation order. -/
def AtexitCb.invokedHooks (s : PyState) : AtexitCb → List Hook
  | .notifyLeafExit r =>
    match (s.getModules r).bind (·.events) with
    | none => []
    | some em =>
      match em.event "leaf.exit" with
      | .ok ev => ev.notify
      | .error _ => []

/-- Normal process termination: the host `atexit` machinery runs registered
callbacks in reverse registration order; this is the resulting trace of
event notifications. -/
def processExitNotifications (s : PyState) : List String :=
  (s.atexitRegs.reverse.map (AtexitCb.notifications s)).flatten

/-- Normal process termination: the trace of event hooks that get invoked. -/
def processExitInvokedHooks (s : PyState) : List Hook :=
  (s.atexitRegs.reverse.map (AtexitCb.invokedHooks s)).flatten

/-- Modelled from the spec: the default logging handle assumed pre-existing
in the process-wide namespace ("a default logging handle is assumed
pre-existing"); only its existence and logger identity matter. -/
def defaultLogging : Logging := Logging.new 0 "" none

/-- Modelled from the spec: the process-wide shared namespace `core.modules`
as it stands at import time — every slot empty except the pre-existing
default logging handle. -/
def initialModules : Modules :=
  { error := none, events := none, schedules := none, server := none
    plugins := none, database := none, logging := some defaultLogging
    payments := none, weixin := none }

/-- The process state right after importing the package: one shared
namespace on the heap, `core.modules` and the package-level `modules` both
bound to it, no `atexit` registrations yet. -/
def initialState : PyState :=
  { heap := [initialModules], coreModules := 0, packageModules := 0
    atexitRegs := [], nextId := 1 }

/-! ## Helper lemmas shared by several claims -/

/-- Reading back a namespace just written through a valid reference. -/
theorem getModules_set_self {s : PyState} {r : Nat} {m0 : Modules} (m : Modules)
    (h : s.getModules r = some m0) :
    (s.setModules r m).getModules r = some m := by
  have hlen : r < s.heap.length := (List.getElem?_eq_some.mp h).1
  unfold PyState.getModules PyState.setModules
  simp [List.getElem?_set_eq_of_lt, hlen]

/-- A successful bus lookup is a successful `find?` over the event list. -/
theorem event_ok_find {em : EventsManager} {n : String} {ev : Event}
    (he : em.event n = .ok ev) :
    em.events.find? (fun e => e.name == n) = some ev := by
  unfold EventsManager.event at he
  cases hf : em.events.find? (fun e => e.name == n) with
  | some e => rw [hf] at he; exact congrArg some (Except.ok.inj he)
  | none => rw [hf] at he; exact absurd he (by simp)

/-- Hooking through a successful lookup updates exactly the found event. -/
theorem find_hook_update (l : List Event) (n : String) (h : Hook) (ev : Event)
    (hf : l.find? (fun e => e.name == n) = some ev) :
    (l.map (fun e => if e.name = n then e.hook h else e)).find? (fun e => e.name == n)
      = some (ev.hook h) := by
  induction l with
  | nil => simp at hf
  | cons a t ih =>
    rcases eq_or_ne a.name n with hn | hn
    · rw [List.find?_cons_of_pos _ (by simp [hn])] at hf
      cases Option.some.inj hf
      simp only [List.map_cons, if_pos hn]
      exact List.find?_cons_of_pos _ (by simp [Event.hook, hn])
    · rw [List.find?_cons_of_neg _ (by simp [hn])] at hf
      simp only [List.map_cons, if_neg hn]
      rw [List.find?_cons_of_neg _ (by simp [hn])]
      exact ih hf

/-- Hooking through a successful lookup produces exactly the bus update. -/
theorem hookOn_ok {em : EventsManager} {n : String} {ev : Event} (h : Hook)
    (he : em.event n = .ok ev) :
    em.hookOn n h = .ok ⟨em.events.map (fun e => if e.name = n then e.hook h else e)⟩ := by
  unfold EventsManager.hookOn
  rw [he]

/-- After a successful `hookOn`, looking the event up again sees the new
hook appended. -/
theorem event_after_hookOn {em : EventsManager} {n : String} {ev : Event} (h : Hook)
    (he : em.event n = .ok ev) :
    (EventsManager.mk (em.events.map (fun e => if e.name = n then e.hook h else e))).event n
      = .ok (ev.hook h) := by
  unfold EventsManager.event
  rw [find_hook_update _ _ _ _ (event_ok_find he)]

/-- The registration of the `"leaf.exit"` event on the fresh bus by `kernel()`
succeeds: the identifier is valid. -/
theorem add_leafExit_ok :
    EventsManager.add ⟨[]⟩ ⟨"leaf.exit", "在 Leaf 框架退出时执行", []⟩
      = .ok ⟨[⟨"leaf.exit", "在 Leaf 框架退出时执行", []⟩]⟩ := rfl

/-! ## Concrete sample inputs for witnesses and counterexamples -/

/-- An `Init(None)` constructed on the freshly imported process: the instance. -/
def bootInit : Init := (Init.construct none initialState).2

/-- An `Init(None)` constructed on the freshly imported process: the state. -/
def bootState : PyState := (Init.construct none initialState).1

/-- A concrete database configuration. -/
def sampleDbConf : DatabaseConf := ⟨4, "localhost", 27017, "user", "pass", 5⟩

/-- A concrete plugins configuration using the default source. -/
def samplePlugConf : PluginsConf := ⟨none, true⟩

/-- A concrete logging configuration. -/
def sampleLogConf : LoggingConf := ⟨some "%(message)s", "leafrc", 10, none, 20, none, 30⟩

/-- A concrete weixin configuration. -/
def sampleWeixinConf : WeixinConf := ⟨"aeskey", "appid", "token"⟩

/-- A concrete wxpay configuration. -/
def sampleWxpayConf : WxpayConf := ⟨"appid", "mchid", "apikey", "https://cb", "cert.pem"⟩

/-! ## Claims -/

/-- C9: `Init.__init__(_modules)` mutates global state beyond the instance
only by rebinding the package-level `core.modules` reference — to the
supplied namespace, or to the pre-existing process-wide namespace when
`_modules` is `None`; the heap of shared-registry slots, the `atexit` list
and the fresh-value counter are untouched, and the instance starts with the
latch cleared and the same namespace captured. -/
theorem construct_rebinds_core_modules_frame (r : Option Nat) (s : PyState) :
    (Init.construct r s).1.heap = s.heap ∧
    (Init.construct r s).1.atexitRegs = s.atexitRegs ∧
    (Init.construct r s).1.nextId = s.nextId ∧
    (Init.construct r s).1.packageModules = s.packageModules ∧
    (Init.construct r s).1.coreModules =
      (match r with | some n => n | none => s.packageModules) ∧
    (Init.construct r s).2.modulesRef = (Init.construct r s).1.coreModules ∧
    (Init.construct r s).2.kernelInitialized = false := by
  cases r <;> simp [Init.construct]

/-- C2: a first `kernel()` call (latch clear) on a valid namespace creates
the error registry with exactly the four event-system error kinds
registered, the event bus holding exactly the single reserved `"leaf.exit"`
exit event, and the scheduler. -/
theorem kernel_first_call_initializes_core (i : Init) (s : PyState) (m : Modules)
    (hfresh : i.kernelInitialized = false)
    (hm : s.getModules i.modulesRef = some m) :
    ∃ s' i', Init.kernel i s = .ok (s', i') ∧
      s'.getModules i.modulesRef = some
        { m with
          error := some ⟨[.EventNotFound, .InvalidEventName, .InvalidRootName, .ReachedMaxReg]⟩
          events := some ⟨[⟨"leaf.exit", "在 Leaf 框架退出时执行", []⟩]⟩
          schedules := some ⟨⟩ } ∧
      i'.kernelInitialized = true := by
  unfold Init.kernel
  rw [hfresh]
  simp only [Bool.false_eq_true, if_false, hm, Messenger.register]
  rw [add_leafExit_ok]
  exact ⟨_, _, rfl, getModules_set_self _ hm, rfl⟩

/-- C2 witness: the first `kernel()` call on the freshly imported process. -/
theorem kernel_first_call_initializes_core_witness :
    ∃ s' i', Init.kernel bootInit bootState = .ok (s', i') ∧
      s'.getModules bootInit.modulesRef = some
        { initialModules with
          error := some ⟨[.EventNotFound, .InvalidEventName, .InvalidRootName, .ReachedMaxReg]⟩
          events := some ⟨[⟨"leaf.exit", "在 Leaf 框架退出时执行", []⟩]⟩
          schedules := some ⟨⟩ } ∧
      i'.kernelInitialized = true :=
  kernel_first_call_initializes_core bootInit bootState initialModules rfl rfl

/-- List-level version of reading back a freshly written heap cell. -/
theorem heap_set_get {l : List Modules} {r : Nat} {m0 : Modules} (m : Modules)
    (h : l[r]? = some m0) : (l.set r m)[r]? = some m := by
  have hlen : r < l.length := (List.getElem?_eq_some.mp h).1
  simp [List.getElem?_set_eq_of_lt, hlen]

/-- Runs `Init(None).kernel()` on the fresh process, then constructs a second
`Init(None)` — sharing the same process-wide namespace — and invokes
`kernel()` on that second instance. -/
def secondKernelRun : Except PyError (PyState × Init) :=
  match Init.kernel bootInit bootState with
  | .error e => .error e
  | .ok (s1, _) => Init.kernel (Init.construct none s1).2 (Init.construct none s1).1

/-- C1 fails as stated: the latch `self.__kernel_initialized` is
per-instance, not per-process.  After a first successful `Init(None).kernel()`
(leaving one `atexit` registration), invoking the entry point again through a
second `Init(None)` instance re-runs kernel-stage initialization: the process
ends up with two `atexit` registrations and the exit event is notified twice
at normal termination, so the subsequent call is not a no-op and there is
not exactly one registered exit event. -/
theorem kernel_process_idempotence_counterexample :
    (Init.kernel bootInit bootState).map (fun p => p.1.atexitRegs.length) = .ok 1 ∧
    secondKernelRun.map (fun p => p.1.atexitRegs.length) = .ok 2 ∧
    secondKernelRun.map (fun p => processExitNotifications p.1)
      = .ok ["leaf.exit", "leaf.exit"] :=
  ⟨rfl, rfl, rfl⟩

/-- C1 (amended): idempotence holds per `Init` instance.  For any instance
with the latch clear and no prior `atexit` registration, after a first
successful `kernel()` call every subsequent `kernel()` call on the same
instance is a no-op, and the state holds exactly one registered exit event,
an event bus with exactly one `"leaf.exit"` event, and a scheduler. -/
theorem kernel_idempotent_per_instance (i : Init) (s s' : PyState) (i' : Init)
    (hfresh : i.kernelInitialized = false) (hax : s.atexitRegs = [])
    (h : Init.kernel i s = .ok (s', i')) :
    Init.kernel i' s' = .ok (s', i') ∧
    s'.atexitRegs.length = 1 ∧
    ∃ m', s'.getModules i.modulesRef = some m' ∧
      (∃ em, m'.events = some em ∧
        (em.events.filter (fun e => e.name == "leaf.exit")).length = 1) ∧
      m'.schedules.isSome = true := by
  unfold Init.kernel at h
  rw [hfresh] at h
  simp only [Bool.false_eq_true, if_false, Messenger.register, add_leafExit_ok] at h
  cases hm : s.getModules i.modulesRef with
  | none => rw [hm] at h; exact absurd h (by simp)
  | some m =>
    rw [hm] at h
    simp only [add_leafExit_ok] at h
    injection h with h2
    injection h2 with hs hi
    subst hs
    subst hi
    refine ⟨by simp [Init.kernel], by simp [PyState.setModules, hax], ?_⟩
    exact ⟨_, getModules_set_self _ hm, ⟨_, rfl, by decide⟩, rfl⟩

/-- The state and instance after the first successful `kernel()` call on the
fresh process. -/
def afterFirstKernel : PyState × Init :=
  (Init.kernel bootInit bootState).toOption.getD (bootState, bootInit)

/-- C1 witness: the first call on the fresh process, then the second call on
the same instance. -/
theorem kernel_idempotent_per_instance_witness :
    Init.kernel afterFirstKernel.2 afterFirstKernel.1
        = .ok (afterFirstKernel.1, afterFirstKernel.2) ∧
    afterFirstKernel.1.atexitRegs.length = 1 ∧
    ∃ m', afterFirstKernel.1.getModules bootInit.modulesRef = some m' ∧
      (∃ em, m'.events = some em ∧
        (em.events.filter (fun e => e.name == "leaf.exit")).length = 1) ∧
      m'.schedules.isSome = true :=
  kernel_idempotent_per_instance bootInit bootState afterFirstKernel.1 afterFirstKernel.2
    rfl rfl rfl

/-- C3: a first `kernel()` call on a state with no prior `atexit`
registration registers exactly one `atexit` callback — the one notifying the
reserved `"leaf.exit"` event — and normal process termination afterwards
notifies `"leaf.exit"` exactly once. -/
theorem kernel_registers_single_exit_notification (i : Init) (s : PyState) (m : Modules)
    (hfresh : i.kernelInitialized = false) (hax : s.atexitRegs = [])
    (hm : s.getModules i.modulesRef = some m) :
    ∃ s' i', Init.kernel i s = .ok (s', i') ∧
      s'.atexitRegs = [.notifyLeafExit i.modulesRef] ∧
      processExitNotifications s' = ["leaf.exit"] := by
  unfold Init.kernel
  rw [hfresh]
  simp only [Bool.false_eq_true, if_false, hm]
  rw [add_leafExit_ok]
  have hm' : s.heap[i.modulesRef]? = some m := hm
  refine ⟨_, _, rfl, by simp [PyState.setModules, hax], ?_⟩
  simp [processExitNotifications, PyState.setModules, hax, AtexitCb.notifications,
    PyState.getModules, heap_set_get _ hm', EventsManager.event]

/-- C3 witness: the fresh process boot. -/
theorem kernel_registers_single_exit_notification_witness :
    ∃ s' i', Init.kernel bootInit bootState = .ok (s', i') ∧
      s'.atexitRegs = [.notifyLeafExit bootInit.modulesRef] ∧
      processExitNotifications s' = ["leaf.exit"] :=
  kernel_registers_single_exit_notification bootInit bootState initialModules rfl rfl rfl

/-- C4: `Init.logging(conf)` replaces the logging handle and then attempts to
re-attach the server's logger; when the `server` slot is absent the
missing-resource `KeyError` is caught, the re-attach is silently skipped, and
the call still returns the new logging handle without raising. -/
theorem logging_tolerates_missing_server (i : Init) (conf : LoggingConf)
    (s : PyState) (m : Modules)
    (hm : s.getModules i.modulesRef = some m) (hsrv : m.server = none) :
    ∃ s' lg, Init.logging i conf s = .ok (s', lg) ∧
      ∃ m', s'.getModules i.modulesRef = some m' ∧
        m'.logging = some lg ∧ m'.server = none := by
  unfold Init.logging
  rw [hm]
  cases hf : conf.format <;> cases hff : conf.fileFormat <;> cases hcf : conf.consoleFormat <;>
    · simp only [hf, hff, hcf, hsrv]
      exact ⟨_, _, rfl, _, getModules_set_self _ hm, rfl, rfl⟩

/-- C4 witness: `logging()` on the fresh process, before `server()`. -/
theorem logging_tolerates_missing_server_witness :
    ∃ s' lg, Init.logging bootInit sampleLogConf bootState = .ok (s', lg) ∧
      ∃ m', s'.getModules bootInit.modulesRef = some m' ∧
        m'.logging = some lg ∧ m'.server = none :=
  logging_tolerates_missing_server bootInit sampleLogConf bootState initialModules rfl rfl

/-- C5 fails as stated: on a fresh `Init` instance whose namespace has never
seen `kernel()`, `database(conf)` raises the missing-slot `KeyError` for the
`events` slot — not `EventNotFound` — and `plugins(conf)` raises the
missing-slot `KeyError` for the `error` slot before ever reaching the
`"leaf.exit"` lookup. -/
theorem missing_events_slot_counterexample :
    Init.database bootInit sampleDbConf bootState = .error (.keyError "events") ∧
    Init.plugins bootInit samplePlugConf bootState = .error (.keyError "error") ∧
    PyError.keyError "events" ≠ .leafError .EventNotFound ∧
    PyError.keyError "error" ≠ .leafError .EventNotFound :=
  ⟨rfl, rfl, by decide, by decide⟩

/-- C5 (amended): before `kernel()` has populated the namespace, the exit
hooks cannot be registered, but the failure is the missing-slot `KeyError`,
not `EventNotFound`: `database(conf)` fails with `KeyError` on the `events`
slot, and `plugins(conf)` fails with `KeyError` on the `error` slot (the
first kernel-created slot it reads).  `EventNotFound` arises only when an
event bus exists but has no `"leaf.exit"` event registered. -/
theorem exit_hook_requires_kernel_slots (i : Init) (s : PyState) (m : Modules)
    (confD : DatabaseConf) (confP : PluginsConf)
    (hm : s.getModules i.modulesRef = some m)
    (hev : m.events = none) (herr : m.error = none) :
    Init.database i confD s = .error (.keyError "events") ∧
    Init.plugins i confP s = .error (.keyError "error") ∧
    (∀ em : EventsManager, em.events = [] →
      em.event "leaf.exit" = .error (.leafError .EventNotFound)) := by
  refine ⟨?_, ?_, ?_⟩
  · unfold Init.database
    rw [hm]
    simp [hev]
  · unfold Init.plugins
    rw [hm]
    simp [herr]
  · intro em hempty
    unfold EventsManager.event
    rw [hempty]
    rfl

/-- C5 amended witness: the fresh process before any `kernel()` call. -/
theorem exit_hook_requires_kernel_slots_witness :
    Init.database bootInit sampleDbConf bootState = .error (.keyError "events") ∧
    Init.plugins bootInit samplePlugConf bootState = .error (.keyError "error") ∧
    (∀ em : EventsManager, em.events = [] →
      em.event "leaf.exit" = .error (.leafError .EventNotFound)) :=
  exit_hook_requires_kernel_slots bootInit bootState initialModules sampleDbConf
    samplePlugConf rfl rfl rfl

/-- C6: `Init.plugins(conf)` creates the manager from `conf.directory` when
set (from the default source when `None`), registers the four plugin error
kinds, scans with `conf.autorun`, registers the plugin blueprint on the
server at the `"/plugins"` mount point, hooks `stopall` onto the
process-exit event, and returns the manager. -/
theorem plugins_initializes_manager_and_hooks (i : Init) (conf : PluginsConf)
    (s : PyState) (m : Modules) (mes : Messenger) (srv : Flask)
    (em : EventsManager) (ev : Event)
    (hm : s.getModules i.modulesRef = some m)
    (herr : m.error = some mes) (hsrv : m.server = some srv)
    (hev : m.events = some em) (hleaf : em.event "leaf.exit" = .ok ev) :
    ∃ s' mgr, Init.plugins i conf s = .ok (s', mgr) ∧
      mgr = ⟨(match conf.directory with | none => .current | some d => .dir d),
             [conf.autorun]⟩ ∧
      ∃ m', s'.getModules i.modulesRef = some m' ∧
        m'.plugins = some mgr ∧
        m'.error = some ⟨mes.registered ++
          [.PluginImportError, .PluginNotFound, .PluginInitError, .PluginRuntimeError]⟩ ∧
        m'.server = some (srv.registerBlueprint "plugins" "/plugins") ∧
        ∃ em', m'.events = some em' ∧
          em'.event "leaf.exit" = .ok (ev.hook (.stopall mgr)) := by
  cases hd : conf.directory with
  | none =>
    unfold Init.plugins
    rw [hm]
    simp only [hd, herr, hsrv, hev, Messenger.register, PluginsManager.scan, List.nil_append]
    rw [hookOn_ok _ hleaf]
    exact ⟨_, _, rfl, rfl, _, getModules_set_self _ hm, rfl, by simp, rfl, _, rfl,
      event_after_hookOn _ hleaf⟩
  | some d =>
    unfold Init.plugins
    rw [hm]
    simp only [hd, herr, hsrv, hev, Messenger.register, PluginsManager.scan, List.nil_append]
    rw [hookOn_ok _ hleaf]
    exact ⟨_, _, rfl, rfl, _, getModules_set_self _ hm, rfl, by simp, rfl, _, rfl,
      event_after_hookOn _ hleaf⟩

/-- The state and server handle after `kernel()` and then `server()` on the
fresh process. -/
def afterServer : PyState × Flask :=
  (Init.server afterFirstKernel.2 afterFirstKernel.1).toOption.getD
    (afterFirstKernel.1, Flask.new "leaf")

/-- C6 witness: `plugins()` after `kernel()` and `server()` on the fresh
process, with the default plugin source. -/
theorem plugins_initializes_manager_and_hooks_witness :
    ∃ s' mgr, Init.plugins afterFirstKernel.2 samplePlugConf afterServer.1 = .ok (s', mgr) ∧
      mgr = ⟨.current, [true]⟩ ∧
      ∃ m', s'.getModules afterFirstKernel.2.modulesRef = some m' ∧
        m'.plugins = some mgr ∧
        m'.error = some ⟨[.EventNotFound, .InvalidEventName, .InvalidRootName, .ReachedMaxReg] ++
          [.PluginImportError, .PluginNotFound, .PluginInitError, .PluginRuntimeError]⟩ ∧
        m'.server = some ((Flask.mk "leaf" (some 0) (some 1) []).registerBlueprint
          "plugins" "/plugins") ∧
        ∃ em', m'.events = some em' ∧
          em'.event "leaf.exit"
            = .ok (Event.hook ⟨"leaf.exit", "在 Leaf 框架退出时执行", []⟩ (.stopall mgr)) :=
  plugins_initializes_manager_and_hooks afterFirstKernel.2 samplePlugConf afterServer.1 _
    ⟨[.EventNotFound, .InvalidEventName, .InvalidRootName, .ReachedMaxReg]⟩
    (Flask.mk "leaf" (some 0) (some 1) [])
    ⟨[⟨"leaf.exit", "在 Leaf 框架退出时执行", []⟩]⟩
    ⟨"leaf.exit", "在 Leaf 框架退出时执行", []⟩ rfl rfl rfl rfl rfl

/-- C7: `Init.database(conf)` creates the connection pool from the
configuration, stores it in the shared registry's `database` slot, and hooks
`pool.stop` onto the `"leaf.exit"` event, so that after success the pool's
shutdown is among the exit event's hooks and runs at normal process end. -/
theorem database_creates_pool_and_exit_hook (i : Init) (conf : DatabaseConf)
    (s : PyState) (m : Modules) (em : EventsManager) (ev : Event)
    (hm : s.getModules i.modulesRef = some m)
    (hev : m.events = some em) (hleaf : em.event "leaf.exit" = .ok ev)
    (hax : s.atexitRegs = [.notifyLeafExit i.modulesRef]) :
    ∃ s' pool, Init.database i conf s = .ok (s', pool) ∧
      pool = ⟨conf.size, conf.server, conf.port, conf.username, conf.password, conf.timeout⟩ ∧
      ∃ m', s'.getModules i.modulesRef = some m' ∧
        m'.database = some pool ∧
        (∃ em', m'.events = some em' ∧
          em'.event "leaf.exit" = .ok (ev.hook (.poolStop pool))) ∧
        Hook.poolStop pool ∈ processExitInvokedHooks s' := by
  unfold Init.database
  rw [hm]
  simp only [hev]
  rw [hookOn_ok _ hleaf]
  have hm' : s.heap[i.modulesRef]? = some m := hm
  have hget : ∀ mm : Modules,
      (s.heap.set i.modulesRef mm)[i.modulesRef]? = some mm :=
    fun mm => heap_set_get mm hm'
  have hlook := event_after_hookOn
    (Hook.poolStop ⟨conf.size, conf.server, conf.port, conf.username, conf.password,
      conf.timeout⟩) hleaf
  refine ⟨_, _, rfl, rfl, _, getModules_set_self _ hm, rfl, ⟨_, rfl, hlook⟩, ?_⟩
  simp [processExitInvokedHooks, PyState.setModules, hax, AtexitCb.invokedHooks,
    PyState.getModules, hget, hlook, Event.notify]
  simp [Event.hook]

/-- C7 witness: `database()` after `kernel()` and `server()` on the fresh
process. -/
theorem database_creates_pool_and_exit_hook_witness :
    ∃ s' pool, Init.database afterFirstKernel.2 sampleDbConf afterServer.1 = .ok (s', pool) ∧
      pool = ⟨4, "localhost", 27017, "user", "pass", 5⟩ ∧
      ∃ m', s'.getModules afterFirstKernel.2.modulesRef = some m' ∧
        m'.database = some pool ∧
        (∃ em', m'.events = some em' ∧
          em'.event "leaf.exit"
            = .ok (Event.hook ⟨"leaf.exit", "在 Leaf 框架退出时执行", []⟩ (.poolStop pool))) ∧
        Hook.poolStop pool ∈ processExitInvokedHooks s' :=
  database_creates_pool_and_exit_hook afterFirstKernel.2 sampleDbConf afterServer.1 _
    ⟨[⟨"leaf.exit", "在 Leaf 框架退出时执行", []⟩]⟩
    ⟨"leaf.exit", "在 Leaf 框架退出时执行", []⟩ rfl rfl rfl rfl

/-- C8: `Init.server()` creates the `"leaf"` request-serving handle, attaches
the current logging handle's logger to it, assigns the random secret (the
next fresh value), stores it in the `server` slot, and returns it; a default
logging handle pre-existing in the namespace suffices, so it may run before
`Init.logging`. -/
theorem server_creates_handle_with_logger_and_secret (i : Init) (s : PyState)
    (m : Modules) (lg : Logging)
    (hm : s.getModules i.modulesRef = some m) (hlog : m.logging = some lg) :
    ∃ s', Init.server i s = .ok (s',
        ⟨"leaf", some lg.loggerId, some s.nextId, []⟩) ∧
      s'.getModules i.modulesRef
        = some { m with server := some ⟨"leaf", some lg.loggerId, some s.nextId, []⟩ } ∧
      s'.nextId = s.nextId + 1 := by
  unfold Init.server
  rw [hm]
  simp only [hlog, Flask.new]
  exact ⟨_, rfl, getModules_set_self _ hm, rfl⟩

/-- C8 witness: `server()` directly after `kernel()` on the fresh process,
before any explicit `logging()` call — the pre-existing default logging
handle is attached. -/
theorem server_creates_handle_with_logger_and_secret_witness :
    ∃ s', Init.server afterFirstKernel.2 afterFirstKernel.1 = .ok (s',
        ⟨"leaf", some defaultLogging.loggerId, some afterFirstKernel.1.nextId, []⟩) ∧
      s'.getModules afterFirstKernel.2.modulesRef
        = some { initialModules with
            error := some ⟨[.EventNotFound, .InvalidEventName, .InvalidRootName, .ReachedMaxReg]⟩
            events := some ⟨[⟨"leaf.exit", "在 Leaf 框架退出时执行", []⟩]⟩
            schedules := some ⟨⟩
            server := some ⟨"leaf", some defaultLogging.loggerId,
              some afterFirstKernel.1.nextId, []⟩ } ∧
      s'.nextId = afterFirstKernel.1.nextId + 1 :=
  server_creates_handle_with_logger_and_secret afterFirstKernel.2 afterFirstKernel.1 _
    defaultLogging rfl rfl

/-- C10: `plugins(conf)`, `weixin(conf)` and `wxpay(conf)` all read the
shared registry's `server` slot to register their route surface and do not
degrade gracefully: when the slot is absent each call propagates the
missing-slot `KeyError` to the caller instead of skipping the
registration. -/
theorem route_registrations_require_server_slot (i : Init) (s : PyState) (m : Modules)
    (mes : Messenger) (confP : PluginsConf) (confW : WeixinConf) (confX : WxpayConf)
    (hm : s.getModules i.modulesRef = some m)
    (herr : m.error = some mes) (hsrv : m.server = none) :
    Init.plugins i confP s = .error (.keyError "server") ∧
    Init.weixin i confW s = .error (.keyError "server") ∧
    Init.wxpay i confX s = .error (.keyError "server") := by
  refine ⟨?_, ?_, ?_⟩
  · unfold Init.plugins
    rw [hm]
    simp [herr, hsrv]
  · unfold Init.weixin
    rw [hm]
    simp [hsrv]
  · unfold Init.wxpay
    rw [hm]
    simp [hsrv]

/-- C10 witness: the three calls after `kernel()` but before `server()` on
the fresh process. -/
theorem route_registrations_require_server_slot_witness :
    Init.plugins afterFirstKernel.2 samplePlugConf afterFirstKernel.1
      = .error (.keyError "server") ∧
    Init.weixin afterFirstKernel.2 sampleWeixinConf afterFirstKernel.1
      = .error (.keyError "server") ∧
    Init.wxpay afterFirstKernel.2 sampleWxpayConf afterFirstKernel.1
      = .error (.keyError "server") :=
  route_registrations_require_server_slot afterFirstKernel.2 afterFirstKernel.1 _
    ⟨[.EventNotFound, .InvalidEventName, .InvalidRootName, .ReachedMaxReg]⟩
    samplePlugConf sampleWeixinConf sampleWxpayConf rfl rfl rfl
